import Mathlib

/-!
Shallow embedding of the bookmark cog (`bot/exts/utilities/bookmark.py`) and the
relevant parts of the bot session (`bot/bot.py`).

Modelling conventions:
* Member ids and message ids are `Nat` (Discord snowflakes).
* The Redis cache `member_bookmarked_messages` maps a member id to the JSON string
  of a list of message ids.  The JSON round-trip (`json.dumps` / `json.loads`) is
  the identity on lists of integers, so the cache is modelled as
  `Nat → Option (List Nat)`; an absent key is `none` and `get(member.id, "[]")`
  followed by `json.loads` is `(c memberId).getD []`.
* Awaited external effects (DM sends, channel sends, reaction waits, message
  deletions) are recorded in an `Effect` trace.  `member.send` can raise
  `discord.Forbidden` when the member's DMs are closed; that possibility is an
  explicit boolean input (`dmsClosed`) supplied by the environment, and the id of
  the freshly created DM message (`dmMessageId`) is likewise an environment input.
* Embed construction (`build_bookmark_dm`, `build_error_embed`) only produces
  display data; the trace records which embed is sent and, for error embeds, the
  description string (the random title from `ERROR_REPLIES` and the colours do not
  affect any claim and are not modelled).
-/

/-- Cache state of the `member_bookmarked_messages` RedisCache:
member id ↦ deserialised list of message ids, `none` when the key is absent. -/
abbrev Cache := Nat → Option (List Nat)

/-- Cache with no keys set. -/
def emptyCache : Cache := fun _ => none

/-- RedisCache.set: store a (serialised) list under a member id key. -/
def cacheSet (c : Cache) (memberId : Nat) (v : List Nat) : Cache :=
  fun m => if m = memberId then some v else c m

/-- TIMEOUT constant: number of seconds to wait for other users to bookmark the
same message. -/
def TIMEOUT : Nat := 120

/-- BOOKMARK_EMOJI constant. -/
def BOOKMARK_EMOJI : String := "📌"

/-- MESSAGE_NOT_FOUND_ERROR constant: guidance text listing the three message
lookup strategies (braces and apostrophes of the source text are written with
hexadecimal escapes). -/
def MESSAGE_NOT_FOUND_ERROR : String :=
  "You must either provide a valid message to bookmark, or reply to one."
  ++ "\n\nThe lookup strategy for a message is as follows (in order):"
  ++ "\n1. Lookup by \x27\x7bchannel ID\x7d-\x7bmessage ID\x7d\x27 (retrieved by shift-clicking on \x27Copy ID\x27)"
  ++ "\n2. Lookup by message ID (the message **must** have been sent after the bot last started)"
  ++ "\n3. Lookup by message URL"

/-- Discord mention string of a member (`member.mention`). -/
def memberMention (memberId : Nat) : String := "<@" ++ toString memberId ++ ">"

/-- Description of the error embed sent when the member's DMs are closed. -/
def dmsClosedText (memberId : Nat) : String :=
  memberMention memberId ++ ", please enable your DMs to receive the bookmark."

/-- Description of the error embed sent on a duplicate bookmark. -/
def alreadyBookmarkedText (memberId : Nat) : String :=
  memberMention memberId ++ ", you have already bookmarked this message!"

/-- Description of the error embed sent when the invoker cannot read the target
channel. -/
def noPermissionText (memberId : Nat) : String :=
  memberMention memberId ++ " You don\x27t have permission to view this channel."

/-- Error text of the `delete` subcommand when the message is not in the
invoker's own DM channel. -/
def wrongChannelText : String := ":x: You can only delete messages in your own DMs!"

/-- Awaited external effects recorded while running the cog's coroutines. -/
inductive Effect
  /-- `member.send(embed=build_bookmark_dm(target_message, title))`. -/
  | dmSend (memberId targetMessageId : Nat) (title : String)
  /-- `channel.send(embed=build_error_embed(description))`. -/
  | channelError (description : String)
  /-- `ctx.send(embed=reaction_embed)`: the public prompt message. -/
  | sendPrompt
  /-- `reaction_message.add_reaction(BOOKMARK_EMOJI)`. -/
  | addReaction (emoji : String)
  /-- `self.bot.wait_for("reaction_add", timeout=..., check=event_check)`:
  one wait, with the timeout (in seconds) passed to that wait. -/
  | waitReaction (timeoutSeconds : Nat)
  /-- `reaction_message.delete()`. -/
  | deletePrompt
  /-- `message_to_delete.delete()`. -/
  | deleteMessage (messageId : Nat)
deriving DecidableEq

/-- Python exceptions that can escape a command callback. -/
inductive PyError
  /-- `commands.UserInputError(message)` (also covers its subclasses). -/
  | userInputError (message : String)
  /-- `TypeError` (here: a call with a missing required positional argument). -/
  | typeError
deriving DecidableEq

/-- Bookmark.get_member_bookmarked_messages: de-serialise and return the
messages a user has bookmarked (`get(member.id, "[]")` then `json.loads`). -/
def get_member_bookmarked_messages (c : Cache) (memberId : Nat) : List Nat :=
  (c memberId).getD []

/-- Bookmark.update_member_bookmarked_messages, translated line by line:
read the member's list; `if message_id not in members_bookmarked_messages:
return` (early return without writing, for BOTH actions); otherwise apply
`list.append` when `add_or_remove == "add"` and `list.remove` otherwise
(`List.erase` removes the first occurrence, as `list.remove` does), then
`set` the serialised result. -/
def update_member_bookmarked_messages
    (c : Cache) (memberId messageId : Nat) (addOrRemove : String) : Cache :=
  if messageId ∉ get_member_bookmarked_messages c memberId then c
  else
    cacheSet c memberId
      (if addOrRemove = "add"
        then get_member_bookmarked_messages c memberId ++ [messageId]
        else (get_member_bookmarked_messages c memberId).erase messageId)

/-- Outcome of `maybe_send_bookmark`: the returned DM message, or the raised
exception (`AlreadyBookmarkedError`, a `UserInputError` subclass, or
`discord.Forbidden` out of `member.send`). -/
inductive SendOutcome
  | sent (dmMessageId : Nat)
  | alreadyBookmarked
  | forbidden
deriving DecidableEq

/-- Result of one `maybe_send_bookmark` call: outcome, cache after the call and
trace of awaited effects. -/
structure SendResult where
  outcome : SendOutcome
  cache : Cache
  actions : List Effect

/-- Bookmark.maybe_send_bookmark: read the member's cached list; raise
`AlreadyBookmarkedError` if `target_message.id` is in it; otherwise build the DM
embed and `member.send` it (raising `discord.Forbidden` when the member's DMs
are closed); on delivery, call `update_member_bookmarked_messages` with
`message.id` — the id of the DM message just sent, not the target's — and the
action `"add"`; return the DM message. -/
def maybe_send_bookmark (c : Cache) (targetMessageId : Nat) (title : String)
    (memberId : Nat) (dmsClosed : Bool) (dmMessageId : Nat) : SendResult :=
  if targetMessageId ∈ get_member_bookmarked_messages c memberId then
    { outcome := .alreadyBookmarked, cache := c, actions := [] }
  else if dmsClosed then
    { outcome := .forbidden, cache := c, actions := [] }
  else
    { outcome := .sent dmMessageId,
      cache := update_member_bookmarked_messages c memberId dmMessageId "add",
      actions := [.dmSend memberId targetMessageId title] }

/-- Result of `action_bookmark` (which swallows both exceptions): cache after the
call and trace of awaited effects. -/
structure ActionResult where
  cache : Cache
  actions : List Effect

/-- Bookmark.action_bookmark: try `maybe_send_bookmark`; on `discord.Forbidden`
send the DMs-closed error embed to the invoking channel, on
`AlreadyBookmarkedError` send the duplicate error embed; on success just log. -/
def action_bookmark (c : Cache) (memberId targetMessageId : Nat) (title : String)
    (dmsClosed : Bool) (dmMessageId : Nat) : ActionResult :=
  match maybe_send_bookmark c targetMessageId title memberId dmsClosed dmMessageId with
  | { outcome := .sent _, cache := c2, actions := acts } =>
      { cache := c2, actions := acts }
  | { outcome := .forbidden, cache := c2, actions := acts } =>
      { cache := c2, actions := acts ++ [.channelError (dmsClosedText memberId)] }
  | { outcome := .alreadyBookmarked, cache := c2, actions := acts } =>
      { cache := c2, actions := acts ++ [.channelError (alreadyBookmarkedText memberId)] }

/-- Helper on actions: whether the action is a DM delivery. -/
def Effect.isDmSend : Effect → Bool
  | .dmSend _ _ _ => true
  | _ => false

/-- Resolution of the target message: the explicit converter argument if it
resolved, otherwise `getattr(ctx.message.reference, "resolved", None)`
(the Python `or` chain on two possibly-absent messages). -/
def resolveTarget (arg replyResolved : Option Nat) : Option Nat :=
  match arg with
  | some t => some t
  | none => replyResolved

/-- Bookmark.bookmark's `event_check` closure: a reaction event qualifies iff
`all((reaction.message.id == reaction_message.id, user.id not in
bookmarked_users, str(reaction.emoji) == BOOKMARK_EMOJI, user.id !=
self.bot.user.id))`. -/
def event_check (promptMessageId : Nat) (bookmarkedUsers : List Nat)
    (botUserId : Nat) (reactionMessageId userId : Nat) (emoji : String) : Bool :=
  (reactionMessageId == promptMessageId)
    && !(bookmarkedUsers.contains userId)
    && (emoji == BOOKMARK_EMOJI)
    && (userId != botUserId)

/-- One qualifying reactor delivered by a `wait_for` call: the reacting user's
id, whether their DMs are closed, and the id the DM message would get. -/
structure Reactor where
  userId : Nat
  dmsClosed : Bool
  dmMessageId : Nat
deriving DecidableEq

/-- How the `while True` reaction loop ended. -/
inductive LoopExit
  /-- `asyncio.TimeoutError` was caught and the loop `break`s. -/
  | timedOut
  /-- A `TypeError` escaped the loop body. -/
  | typeError
deriving DecidableEq

/-- Result of the reaction-collection loop. -/
structure LoopResult where
  cache : Cache
  claimed : List Nat
  actions : List Effect
  exitKind : LoopExit

/-- The `while True` loop of Bookmark.bookmark.  The input list holds the
qualifying reactions (events passing `event_check`) the environment delivers,
one per wait, each arriving within that wait's window; when the list is
exhausted the next wait elapses, `asyncio.TimeoutError` is caught and the loop
breaks.  Each iteration that does receive a reaction awaits
`action_bookmark(ctx.channel, user, target_message, title)` and then evaluates
`await reaction.remove()`.  `discord.Reaction.remove` has signature
`remove(user)` with `user` required, so this call raises
`TypeError: remove() missing 1 required positional argument` on every such
iteration; the exception is outside the `try` (which only catches
`asyncio.TimeoutError` around the wait), so it aborts the loop before
`bookmarked_users.append(user.id)` runs and before any further iteration. -/
def collect_loop (c : Cache) (claimed : List Nat) (targetMessageId : Nat)
    (title : String) : List Reactor → LoopResult
  | [] =>
      { cache := c, claimed := claimed,
        actions := [.waitReaction TIMEOUT], exitKind := .timedOut }
  | r :: _ =>
      { cache := (action_bookmark c r.userId targetMessageId title
                    r.dmsClosed r.dmMessageId).cache,
        claimed := claimed,
        actions := .waitReaction TIMEOUT ::
          (action_bookmark c r.userId targetMessageId title
            r.dmsClosed r.dmMessageId).actions,
        exitKind := .typeError }

/-- Inputs of one invocation of the `bookmark` command. -/
structure CommandInput where
  /-- The `Optional[WrappedMessageConverter]` argument (`none` when not given or
  not resolvable). -/
  targetArg : Option Nat
  /-- `ctx.message.reference.resolved` (`none` when the invocation is not a
  reply or the reference did not resolve). -/
  replyResolved : Option Nat
  /-- `ctx.author.id`. -/
  authorId : Nat
  /-- `target_message.channel.permissions_for(ctx.author).read_messages`. -/
  authorCanRead : Bool
  /-- The `title` argument (default `"Bookmark"`). -/
  title : String

/-- Environment of one invocation: delivery data for the author's own bookmark
attempt and the qualifying reactions arriving during the collection loop. -/
structure BookmarkEnv where
  authorDmsClosed : Bool
  authorDmMessageId : Nat
  reactors : List Reactor

/-- Result of one invocation of the `bookmark` command. -/
structure CommandResult where
  cache : Cache
  actions : List Effect
  claimed : List Nat
  raised : Option PyError

/-- Bookmark.bookmark: resolve the target (argument `or` reply reference),
raising `commands.UserInputError(MESSAGE_NOT_FOUND_ERROR)` when neither is
present; abort with a permission error embed when the author cannot read the
target's channel; run `action_bookmark` for the author; initialise
`bookmarked_users = [ctx.author.id]`; send the prompt embed and attach the
`BOOKMARK_EMOJI` reaction; run the reaction loop; after the loop breaks on a
timeout, `reaction_message.delete()`; a `TypeError` escaping the loop
propagates out of the command before that delete. -/
def bookmark (c : Cache) (inp : CommandInput) (env : BookmarkEnv) : CommandResult :=
  match resolveTarget inp.targetArg inp.replyResolved with
  | none =>
      { cache := c, actions := [], claimed := [],
        raised := some (.userInputError MESSAGE_NOT_FOUND_ERROR) }
  | some targetMessageId =>
      if inp.authorCanRead = false then
        { cache := c, actions := [.channelError (noPermissionText inp.authorId)],
          claimed := [], raised := none }
      else
        match action_bookmark c inp.authorId targetMessageId inp.title
                env.authorDmsClosed env.authorDmMessageId with
        | { cache := c1, actions := acts1 } =>
          match collect_loop c1 [inp.authorId] targetMessageId inp.title env.reactors with
          | { cache := c2, claimed := claimed2, actions := acts2, exitKind := .timedOut } =>
              { cache := c2,
                actions := acts1 ++ [.sendPrompt, .addReaction BOOKMARK_EMOJI]
                  ++ acts2 ++ [.deletePrompt],
                claimed := claimed2, raised := none }
          | { cache := c2, claimed := claimed2, actions := acts2, exitKind := .typeError } =>
              { cache := c2,
                actions := acts1 ++ [.sendPrompt, .addReaction BOOKMARK_EMOJI] ++ acts2,
                claimed := claimed2, raised := some .typeError }

/-- Inputs of one invocation of the `bookmark delete` subcommand (DM-only). -/
structure DeleteInput where
  messageArg : Option Nat
  replyResolved : Option Nat
  authorId : Nat
  /-- Whether `message_to_delete.channel == ctx.channel`. -/
  inOwnDm : Bool

/-- Result of one invocation of `bookmark delete`. -/
structure DeleteResult where
  cache : Cache
  actions : List Effect
  raised : Option PyError

/-- Bookmark.delete_bookmark: resolve the message (argument `or` reply),
raising `UserInputError(MESSAGE_NOT_FOUND_ERROR)` when neither is present;
raise `UserInputError` when the message is not in the invoker's own DM channel;
otherwise delete the message and run `update_member_bookmarked_messages` with
the action `"remove"`. -/
def delete_bookmark (c : Cache) (inp : DeleteInput) : DeleteResult :=
  match resolveTarget inp.messageArg inp.replyResolved with
  | none =>
      { cache := c, actions := [],
        raised := some (.userInputError MESSAGE_NOT_FOUND_ERROR) }
  | some messageId =>
      if inp.inOwnDm = false then
        { cache := c, actions := [],
          raised := some (.userInputError wrongChannelText) }
      else
        { cache := update_member_bookmarked_messages c inp.authorId messageId "remove",
          actions := [.deleteMessage messageId],
          raised := none }

/-- One cache-touching operation of the cog, for reasoning about operation
sequences: a bookmark attempt by some member for some target (with that
attempt's delivery environment), or a DM deletion by some member. -/
inductive BookmarkOp
  | bookmarkOp (memberId targetMessageId : Nat) (title : String)
      (dmsClosed : Bool) (dmMessageId : Nat)
  | deleteOp (memberId messageId : Nat)

/-- Run a sequence of cog operations against the cache.  A bookmark attempt
changes the cache exactly as `maybe_send_bookmark` leaves it (on either raised
exception the cache is left untouched, so failed attempts are no-ops here); a
deletion applies the `"remove"` update as `delete_bookmark` does. -/
def runOps : Cache → List BookmarkOp → Cache
  | c, [] => c
  | c, .bookmarkOp m t title cl dm :: rest =>
      runOps (maybe_send_bookmark c t title m cl dm).cache rest
  | c, .deleteOp m mid :: rest =>
      runOps (update_member_bookmarked_messages c m mid "remove") rest

/-- Environment of one `SeasonalBot.close` call: which of the three awaited
close calls would raise, and which optional resources are attached (truthy). -/
structure CloseEnv where
  superCloseRaises : Bool
  httpCloseRaises : Bool
  redisCloseRaises : Bool
  httpSessionAttached : Bool
  redisSessionAttached : Bool
deriving DecidableEq

/-- The three resources `SeasonalBot.close` may close. -/
inductive CloseStep
  /-- `super().close()`: the event-client (gateway) connection. -/
  | eventClient
  /-- `self.http_session.close()`. -/
  | httpSession
  /-- `self.redis_session.close()`. -/
  | redisSession
deriving DecidableEq

/-- SeasonalBot.close: `await super().close()`, then `if self.http_session:
await self.http_session.close()`, then `if self.redis_session: await
self.redis_session.close()` — three sequential awaits with no exception
shielding, so an exception raised by an earlier close propagates immediately
and the later closes are not attempted.  Returns the list of close calls that
were attempted, in order, and whether the method returned normally (`true`) or
an exception propagated (`false`). -/
def SeasonalBot.close (e : CloseEnv) : List CloseStep × Bool :=
  if e.superCloseRaises then ([.eventClient], false)
  else if e.httpSessionAttached then
    if e.httpCloseRaises then ([.eventClient, .httpSession], false)
    else if e.redisSessionAttached then
      if e.redisCloseRaises then ([.eventClient, .httpSession, .redisSession], false)
      else ([.eventClient, .httpSession, .redisSession], true)
    else ([.eventClient, .httpSession], true)
  else if e.redisSessionAttached then
    if e.redisCloseRaises then ([.eventClient, .redisSession], false)
    else ([.eventClient, .redisSession], true)
  else ([.eventClient], true)

/-- Actions of the command-error hook. -/
inductive HandlerAction
  /-- `context.command.reset_cooldown(context)`. -/
  | resetCooldown
  /-- `super().on_command_error(context, exception)` (the library's default
  handler, which logs the exception; it sends nothing to the invoking user). -/
  | delegateDefault
deriving DecidableEq

/-- Whether the exception `isinstance(exception, commands.UserInputError)`
(`AlreadyBookmarkedError` is a `UserInputError` subclass, but it never escapes
the cog; `TypeError` is not a `UserInputError`). -/
def isUserInputError : PyError → Bool
  | .userInputError _ => true
  | .typeError => false

/-- SeasonalBot.on_command_error: for a `UserInputError` reset the command's
cooldown (and do nothing else — in particular nothing is sent to the invoking
user and the default handler is not called); delegate every other exception to
the default handler. -/
def SeasonalBot.on_command_error (e : PyError) : List HandlerAction :=
  if isUserInputError e then [.resetCooldown] else [.delegateDefault]

/-! Helper lemmas about the cache operations. -/

/-- Helper: an update whose message id is absent from the member's current list
writes nothing back (the early return of `update_member_bookmarked_messages`
fires for both the `"add"` and the `"remove"` action). -/
theorem update_not_mem_noop (c : Cache) (m mid : Nat) (a : String)
    (h : mid ∉ get_member_bookmarked_messages c m) :
    update_member_bookmarked_messages c m mid a = c := by
  unfold update_member_bookmarked_messages
  exact if_pos h

/-- Helper: reading one member's key is unaffected by a write to a different
member's key. -/
theorem get_cacheSet_ne (c : Cache) (m m2 : Nat) (v : List Nat) (h : m ≠ m2) :
    get_member_bookmarked_messages (cacheSet c m2 v) m =
      get_member_bookmarked_messages c m := by
  simp [get_member_bookmarked_messages, cacheSet, h]

/-- Helper: a member whose cached list is empty keeps an empty list across any
`update_member_bookmarked_messages` call, by any member and either action. -/
theorem update_preserves_empty (c : Cache) (m m2 mid : Nat) (a : String)
    (h : get_member_bookmarked_messages c m = []) :
    get_member_bookmarked_messages
      (update_member_bookmarked_messages c m2 mid a) m = [] := by
  by_cases hm : mid ∉ get_member_bookmarked_messages c m2
  · rw [update_not_mem_noop c m2 mid a hm, h]
  · unfold update_member_bookmarked_messages
    rw [if_neg hm]
    by_cases he : m = m2
    · subst he
      rw [h] at hm
      exact absurd (List.not_mem_nil mid) hm
    · rw [get_cacheSet_ne c m m2 _ he, h]

/-- Helper: the cache left by `maybe_send_bookmark` keeps a member's empty
cached list empty, whatever the outcome. -/
theorem maybe_send_preserves_empty (c : Cache) (t : Nat) (title : String)
    (m2 : Nat) (cl : Bool) (dm m : Nat)
    (h : get_member_bookmarked_messages c m = []) :
    get_member_bookmarked_messages
      (maybe_send_bookmark c t title m2 cl dm).cache m = [] := by
  unfold maybe_send_bookmark
  by_cases h1 : t ∈ get_member_bookmarked_messages c m2
  · simp only [if_pos h1]
    exact h
  · simp only [if_neg h1]
    cases cl
    · simp only [Bool.false_eq_true, if_false]
      exact update_preserves_empty c m m2 dm "add" h
    · simp only [if_true]
      exact h

/-- Helper: a member's empty cached list stays empty across any sequence of
cog operations. -/
theorem runOps_preserves_empty (ops : List BookmarkOp) (c : Cache) (m : Nat)
    (h : get_member_bookmarked_messages c m = []) :
    get_member_bookmarked_messages (runOps c ops) m = [] := by
  induction ops generalizing c with
  | nil => exact h
  | cons op rest ih =>
    cases op with
    | bookmarkOp m2 t title cl dm =>
      simp only [runOps]
      exact ih _ (maybe_send_preserves_empty c t title m2 cl dm m h)
    | deleteOp m2 mid =>
      simp only [runOps]
      exact ih _ (update_preserves_empty c m m2 mid "remove" h)

/-! Claim theorems. -/

/-- Claim C1, evaluated at its failing input: starting from an empty cache,
member 1 bookmarks target message 100 and the DM is delivered as message 200.
`maybe_send_bookmark` returns the DM message without raising, yet the member's
cached list afterwards is still empty — in particular it does not contain the
target message id 100 (the update is invoked with the DM message id 200, and
its early-return guard drops the write since 200 is not already present). -/
theorem maybe_send_bookmark_appends_nothing :
    (maybe_send_bookmark emptyCache 100 "Bookmark" 1 false 200).outcome = .sent 200
  ∧ get_member_bookmarked_messages
      (maybe_send_bookmark emptyCache 100 "Bookmark" 1 false 200).cache 1 = []
  ∧ 100 ∉ get_member_bookmarked_messages
      (maybe_send_bookmark emptyCache 100 "Bookmark" 1 false 200).cache 1 := by
  refine ⟨rfl, rfl, ?_⟩
  intro hmem
  simp [maybe_send_bookmark, update_member_bookmarked_messages,
    get_member_bookmarked_messages, emptyCache] at hmem

/-- Claim C2, evaluated at its failing input: member 1 bookmarks target message
100 twice from an empty cache with no intervening delete (DMs open; the two DM
messages get ids 200 and 201).  The second attempt does not raise
`AlreadyBookmarkedError`: it succeeds and sends a second DM, because the first
attempt persisted nothing for the duplicate check to find. -/
theorem second_bookmark_attempt_succeeds :
    (maybe_send_bookmark emptyCache 100 "Bookmark" 1 false 200).outcome = .sent 200
  ∧ (maybe_send_bookmark
        (maybe_send_bookmark emptyCache 100 "Bookmark" 1 false 200).cache
        100 "Bookmark" 1 false 201).outcome = .sent 201
  ∧ get_member_bookmarked_messages
      (maybe_send_bookmark
        (maybe_send_bookmark emptyCache 100 "Bookmark" 1 false 200).cache
        100 "Bookmark" 1 false 201).cache 1 = [] := by
  refine ⟨rfl, rfl, rfl⟩

/-- Claim C3: for every member whose cache entry starts empty or absent, after
any sequence of bookmark and delete operations (by any members, successful or
not — failed attempts leave the cache untouched), the member's persisted
bookmark list never contains the same message id twice. -/
theorem persisted_list_never_has_duplicates (ops : List BookmarkOp) (c : Cache)
    (m : Nat) (h : get_member_bookmarked_messages c m = []) :
    (get_member_bookmarked_messages (runOps c ops) m).Nodup := by
  rw [runOps_preserves_empty ops c m h]
  exact List.nodup_nil

/-- Claim C3 witness: a concrete run (member 3 bookmarks message 100, a DM
message 200 is delivered, then that DM is deleted) from the empty cache. -/
theorem persisted_list_never_has_duplicates_witness :
    get_member_bookmarked_messages emptyCache 3 = []
  ∧ (get_member_bookmarked_messages
      (runOps emptyCache
        [.bookmarkOp 3 100 "Bookmark" false 200, .deleteOp 3 200]) 3).Nodup :=
  ⟨rfl, persisted_list_never_has_duplicates _ _ _ rfl⟩

/-- Claim C4 counterexample: with both optional resources attached and the
event-client close raising, `SeasonalBot.close` attempts neither the HTTP
session close nor the Redis session close — refuting, at this concrete input,
that each attached resource's close is attempted unconditionally. -/
theorem close_not_independent_counterexample :
    CloseStep.httpSession ∉
      (SeasonalBot.close ⟨true, false, false, true, true⟩).1
  ∧ CloseStep.redisSession ∉
      (SeasonalBot.close ⟨true, false, false, true, true⟩).1 := by
  decide

/-- Claim C4 as amended: closing the bot session attempts the event-client
close first, then (only when the event-client close returned normally and the
resource is attached) the HTTP session close, then (only when both earlier
closes returned normally and the resource is attached) the Redis session close;
an exception raised by an earlier close propagates and skips every later
close. -/
theorem close_order_and_skip (e : CloseEnv) :
    (SeasonalBot.close e).1.head? = some CloseStep.eventClient
  ∧ (e.superCloseRaises = true →
      (SeasonalBot.close e).1 = [CloseStep.eventClient]
        ∧ (SeasonalBot.close e).2 = false)
  ∧ (e.superCloseRaises = false → e.httpSessionAttached = true →
      e.httpCloseRaises = true →
      (SeasonalBot.close e).1 = [CloseStep.eventClient, CloseStep.httpSession]
        ∧ (SeasonalBot.close e).2 = false)
  ∧ (e.superCloseRaises = false → e.httpCloseRaises = false →
      e.redisCloseRaises = false →
      (SeasonalBot.close e).1 =
        [CloseStep.eventClient]
          ++ (if e.httpSessionAttached then [CloseStep.httpSession] else [])
          ++ (if e.redisSessionAttached then [CloseStep.redisSession] else [])
        ∧ (SeasonalBot.close e).2 = true) := by
  obtain ⟨a, b, c2, d, f⟩ := e
  cases a <;> cases b <;> cases c2 <;> cases d <;> cases f <;> decide

/-- Claim C4 witness: the amended theorem applied at the environment where the
event-client close raises with both resources attached. -/
theorem close_order_and_skip_witness :
    (SeasonalBot.close ⟨true, false, false, true, true⟩).1 = [CloseStep.eventClient]
  ∧ (SeasonalBot.close ⟨true, false, false, true, true⟩).2 = false :=
  (close_order_and_skip ⟨true, false, false, true, true⟩).2.1 rfl

/-- Claim C5: during the collecting phase, `event_check` accepts a reaction
event if and only if all four conditions hold — the reaction is on the prompt
message, the reacting user's id is not already in the session's claimed set,
the emoji equals the fixed bookmark emoji, and the reactor is not the bot
itself; in particular a reaction by an already-claimed user is rejected even
when the emoji and the target match. -/
theorem event_check_iff (promptId : Nat) (claimed : List Nat)
    (botId rid uid : Nat) (emoji : String) :
    (event_check promptId claimed botId rid uid emoji = true ↔
      (rid = promptId ∧ uid ∉ claimed ∧ emoji = BOOKMARK_EMOJI ∧ uid ≠ botId))
  ∧ (uid ∈ claimed → event_check promptId claimed botId rid uid emoji = false) := by
  constructor
  · simp [event_check, List.contains, List.elem_iff, and_assoc]
  · intro hm
    simp [event_check, List.contains, List.elem_iff, hm]

/-- Claim C5 witness: the rejection half of the theorem applied to a reaction
on the right prompt with the right emoji by a non-bot user already in the
claimed set. -/
theorem event_check_iff_witness :
    event_check 1 [5] 9 1 5 "📌" = false :=
  (event_check_iff 1 [5] 9 1 5 "📌").2 (by decide)

/-- Claim C6, evaluated at its failing input.  First run: no qualifying
reaction ever arrives, the single wait (with timeout `TIMEOUT` = 120 seconds)
elapses, the loop exits and the prompt is deleted exactly once.  Second run
(the failing one): one qualifying reaction (user 42, DMs open) arrives during
the first wait; the loop body then raises `TypeError` at `reaction.remove()`
(called without its required `user` argument), the command aborts, and the
prompt message is never deleted — instead of the loop continuing to the next
120-second wait and deleting the prompt once after a later timeout. -/
theorem reaction_aborts_loop_without_prompt_delete :
    (bookmark emptyCache ⟨some 100, none, 7, true, "Bookmark"⟩
        ⟨false, 300, []⟩).actions
      = [.dmSend 7 100 "Bookmark", .sendPrompt, .addReaction BOOKMARK_EMOJI,
         .waitReaction TIMEOUT, .deletePrompt]
  ∧ (bookmark emptyCache ⟨some 100, none, 7, true, "Bookmark"⟩
        ⟨false, 300, []⟩).actions.count .deletePrompt = 1
  ∧ (bookmark emptyCache ⟨some 100, none, 7, true, "Bookmark"⟩
        ⟨false, 300, []⟩).raised = none
  ∧ (bookmark emptyCache ⟨some 100, none, 7, true, "Bookmark"⟩
        ⟨false, 300, [⟨42, false, 400⟩]⟩).raised = some .typeError
  ∧ (bookmark emptyCache ⟨some 100, none, 7, true, "Bookmark"⟩
        ⟨false, 300, [⟨42, false, 400⟩]⟩).actions.count .deletePrompt = 0
  ∧ (bookmark emptyCache ⟨some 100, none, 7, true, "Bookmark"⟩
        ⟨false, 300, [⟨42, false, 400⟩]⟩).actions
      = [.dmSend 7 100 "Bookmark", .sendPrompt, .addReaction BOOKMARK_EMOJI,
         .waitReaction TIMEOUT, .dmSend 42 100 "Bookmark"] := by
  refine ⟨rfl, rfl, rfl, rfl, rfl, rfl⟩

/-- Claim C7 counterexample: invoking the bookmark command with neither an
explicit message argument nor a resolvable reply reference raises
`UserInputError(MESSAGE_NOT_FOUND_ERROR)` after emitting no message at all, and
the bot's command-error hook handles that exception by only resetting the
command cooldown — no action of the run carries the guidance text to the
invoking user, refuting the surfacing half of the claim at this input. -/
theorem no_target_guidance_not_surfaced :
    (bookmark emptyCache ⟨none, none, 7, true, "Bookmark"⟩
        ⟨false, 300, []⟩).raised
      = some (.userInputError MESSAGE_NOT_FOUND_ERROR)
  ∧ (bookmark emptyCache ⟨none, none, 7, true, "Bookmark"⟩
        ⟨false, 300, []⟩).actions = []
  ∧ SeasonalBot.on_command_error (.userInputError MESSAGE_NOT_FOUND_ERROR)
      = [.resetCooldown] := by
  refine ⟨rfl, rfl, rfl⟩

/-- Claim C7 as amended: with neither an explicit message argument nor a
resolvable reply reference, the bookmark command raises a user-input error
carrying the guidance text that lists the three message-lookup strategies,
having emitted nothing; the command-error hook then resets the command's
cooldown and does nothing else, so the guidance text is not forwarded to the
invoking user. -/
theorem no_target_resets_cooldown_only (c : Cache) (inp : CommandInput)
    (env : BookmarkEnv) (h1 : inp.targetArg = none)
    (h2 : inp.replyResolved = none) :
    (bookmark c inp env).raised = some (.userInputError MESSAGE_NOT_FOUND_ERROR)
  ∧ (bookmark c inp env).actions = []
  ∧ SeasonalBot.on_command_error (.userInputError MESSAGE_NOT_FOUND_ERROR)
      = [.resetCooldown] := by
  have hr : resolveTarget inp.targetArg inp.replyResolved = none := by
    rw [h1, h2]
    rfl
  refine ⟨?_, ?_, rfl⟩ <;> simp [bookmark, hr]

/-- Claim C7 witness: the amended theorem applied to a concrete invocation with
no argument and no reply. -/
theorem no_target_resets_cooldown_only_witness :
    (bookmark emptyCache ⟨none, none, 8, true, "Bookmark"⟩
        ⟨false, 300, []⟩).raised
      = some (.userInputError MESSAGE_NOT_FOUND_ERROR)
  ∧ (bookmark emptyCache ⟨none, none, 8, true, "Bookmark"⟩
        ⟨false, 300, []⟩).actions = []
  ∧ SeasonalBot.on_command_error (.userInputError MESSAGE_NOT_FOUND_ERROR)
      = [.resetCooldown] :=
  no_target_resets_cooldown_only emptyCache ⟨none, none, 8, true, "Bookmark"⟩
    ⟨false, 300, []⟩ rfl rfl

/-- Claim C8: a bookmark attempt for a member whose DMs are closed leaves the
whole cache unchanged (in particular that member's cached list), sends exactly
one error embed to the invoking channel (the DMs-closed embed, or the
already-bookmarked embed when the target id is already cached), and delivers no
DM. -/
theorem dms_closed_error_embed_no_mutation (c : Cache)
    (memberId targetId dmId : Nat) (title : String) :
    (action_bookmark c memberId targetId title true dmId).cache = c
  ∧ ((action_bookmark c memberId targetId title true dmId).actions
        = [.channelError (dmsClosedText memberId)]
      ∨ (action_bookmark c memberId targetId title true dmId).actions
        = [.channelError (alreadyBookmarkedText memberId)])
  ∧ (action_bookmark c memberId targetId title true dmId).actions.all
      (fun a => !a.isDmSend) = true := by
  by_cases h : targetId ∈ get_member_bookmarked_messages c memberId
  · refine ⟨?_, Or.inr ?_, ?_⟩ <;>
      simp [action_bookmark, maybe_send_bookmark, h, Effect.isDmSend]
  · refine ⟨?_, Or.inl ?_, ?_⟩ <;>
      simp [action_bookmark, maybe_send_bookmark, h, Effect.isDmSend]

/-- Claim C9: a successful `bookmark delete` invocation on a message whose id
is absent from the invoking member's cached list raises nothing, still deletes
the message, and leaves the entire cache unchanged — the invoker's entry and
every other member's entry alike. -/
theorem delete_absent_noop (c : Cache) (inp : DeleteInput) (messageId : Nat)
    (h1 : resolveTarget inp.messageArg inp.replyResolved = some messageId)
    (h2 : inp.inOwnDm = true)
    (h3 : messageId ∉ get_member_bookmarked_messages c inp.authorId) :
    (delete_bookmark c inp).raised = none
  ∧ (delete_bookmark c inp).actions = [.deleteMessage messageId]
  ∧ (delete_bookmark c inp).cache = c := by
  refine ⟨?_, ?_, ?_⟩ <;>
    simp [delete_bookmark, h1, h2,
      update_not_mem_noop c inp.authorId messageId "remove" h3]

/-- Claim C9 witness: member 1 deletes DM message 9 while the cache holds an
entry only for member 2; the id 9 is absent from member 1's (empty) list. -/
theorem delete_absent_noop_witness :
    (delete_bookmark (cacheSet emptyCache 2 [5]) ⟨some 9, none, 1, true⟩).raised
      = none
  ∧ (delete_bookmark (cacheSet emptyCache 2 [5]) ⟨some 9, none, 1, true⟩).actions
      = [.deleteMessage 9]
  ∧ (delete_bookmark (cacheSet emptyCache 2 [5]) ⟨some 9, none, 1, true⟩).cache
      = cacheSet emptyCache 2 [5] :=
  delete_absent_noop (cacheSet emptyCache 2 [5]) ⟨some 9, none, 1, true⟩ 9
    rfl rfl (by decide)

/-- Claim C10, evaluated at its failing input: the collecting loop starts with
the initiator (id 7) in the claimed set; one qualifying reaction by user 42
arrives and the bookmark DM is delivered, yet 42 is never added to the claimed
set — the loop body raises `TypeError` at `reaction.remove()` (missing required
`user` argument) before `bookmarked_users.append(user.id)` runs. -/
theorem accepted_reaction_never_added_to_claimed :
    (collect_loop emptyCache [7] 100 "Bookmark" [⟨42, false, 400⟩]).claimed = [7]
  ∧ 42 ∉ (collect_loop emptyCache [7] 100 "Bookmark" [⟨42, false, 400⟩]).claimed
  ∧ (collect_loop emptyCache [7] 100 "Bookmark" [⟨42, false, 400⟩]).exitKind
      = .typeError
  ∧ (collect_loop emptyCache [7] 100 "Bookmark" [⟨42, false, 400⟩]).actions
      = [.waitReaction TIMEOUT, .dmSend 42 100 "Bookmark"] := by
  refine ⟨rfl, by decide, rfl, rfl⟩
